import Mathlib

/-!
Verification development for `streamlit_app.py` (PrescribeWise, a Streamlit
chat application over the WHO AWaRe Antibiotic Book PDF).

The program is shallowly embedded: the PDF loader `load_pdf_text` is modelled
over an abstract list of per-page extraction outcomes (PyPDF2's
`page.extract_text()` either returns a string or raises), the Streamlit
session state is an explicit record, one chat turn is a state transformer
parameterised by the external text-generation service, and a whole script
rerun is the session-state initialisation block followed by turns.
-/

namespace PrescribeWise

/-- A chat message as stored in `st.session_state.messages` /
`st.session_state.display_messages`: a `{"role": ..., "content": ...}` dict. -/
structure Msg where
  role : String
  content : String
deriving DecidableEq, Repr

/-- Outcome of `page.extract_text()` for one physical page: `Except.ok t`
when extraction returns the text `t`, `Except.error e` when it raises an
exception rendered as the string `e` (as `str(e)` in the `except` clause). -/
abbrev PageResult := Except String String

/-- The text appended for page index `page_num` (0-based, as Python's
`enumerate`) in the loop of `load_pdf_text`:
`text += f"\n--- Page \x7bpage_num + 1\x7d ---\n"` followed by
`text += page.extract_text()`. -/
def renderPage (page_num : Nat) (txt : String) : String :=
  "\n--- Page " ++ toString (page_num + 1) ++ " ---\n" ++ txt

/-- The extraction loop of `load_pdf_text` over `pdf_reader.pages`, starting
at page index `i`.  An exception on any page propagates out of the loop (the
loop body has no `try`), discarding all accumulated text; otherwise the
rendered pages are concatenated in order. -/
def extractLoop : Nat → List PageResult → Except String String
  | _, [] => Except.ok ""
  | i, p :: ps =>
    match p with
    | Except.error e => Except.error e
    | Except.ok t =>
      match extractLoop (i + 1) ps with
      | Except.error e => Except.error e
      | Except.ok rest => Except.ok (renderPage i t ++ rest)

/-- `load_pdf_text(pdf_path)`: returns `(None, "PDF not found at ...")` when
the path does not exist, `(text, None)` when the whole extraction loop
succeeds, and `(None, str(e))` when any exception escapes the `try`. -/
def load_pdf_text (fileExists : Bool) (pages : List PageResult)
    (pdf_path : String) : Option String × Option String :=
  if fileExists then
    match extractLoop 0 pages with
    | Except.ok text => (some text, none)
    | Except.error e => (none, some e)
  else
    (none, some ("PDF not found at " ++ pdf_path))

/-- The `(page number, page text)` sequence the loop walks when every page
extracts successfully: Python's `enumerate(pdf_reader.pages)` starting at
index `i`, with the displayed page number `index + 1`. -/
def numberPages : Nat → List String → List (Nat × String)
  | _, [] => []
  | i, t :: ts => (i + 1, t) :: numberPages (i + 1) ts

/-- The extracted page sequence of a document whose pages all extract
successfully: one `(number, text)` record per physical page, numbered from 1. -/
def extractedPages (texts : List String) : List (Nat × String) :=
  numberPages 0 texts

/-- The full text accumulated by the loop from page index `i` on, when every
page extracts successfully. -/
def renderAll : Nat → List String → String
  | _, [] => ""
  | i, t :: ts => renderPage i t ++ renderAll (i + 1) ts

/-- The `pdf_context` string built inside the `if "messages" not in
st.session_state` block: empty when the PDF failed to load, otherwise a
header, the first 10000 characters of the extracted text
(`pdf_text[:10000]`), and a continuation marker. -/
def pdfContext (pdf_loaded : Bool) (pdf_text : String) : String :=
  if pdf_loaded then
    "\n\nWHO AWaRe ANTIBIOTIC BOOK (2022) CONTENT:\n" ++ pdf_text.take 10000
      ++ "\n[... document continues ...]"
  else ""

/-- The system message content: the f-string assigned as the `"content"` of
the single `"system"` message, with `pdf_context` interpolated. -/
def systemPrompt (pdf_context : String) : String :=
  "You are PrescribeWise, an intelligent health worker assistant specialized in The WHO AWaRe (Access, Watch, Reserve) Antibiotic Book (2022).

Your mission: Help health workers prescribe antibiotics appropriately to improve rational use and combat multidrug resistance.

" ++ pdf_context ++ "

CRITICAL RESPONSE RULES:

1. **ANSWER ONLY WHAT IS ASKED:**
   - If asked about first-line → provide ONLY first-line information
   - If asked about alternatives → then provide alternatives
   - If asked about specific drug → focus on that drug
   - Be focused and relevant

2. **BE DETAILED AND COMPREHENSIVE:**
   - Provide thorough information for what is asked
   - Include specific dosages when available
   - Include treatment duration
   - Include age-specific information
   - Include contraindications and monitoring
   - Make responses substantive (400-800 words when appropriate)

3. **WHO AWaRe CLASSIFICATION - ALWAYS SPECIFY:**

   🟢 **ACCESS** = First-line, first-choice antibiotics
   - Narrow spectrum
   - Lower resistance risk
   - Should be widely available

   🟡 **WATCH** = Second-line alternatives
   - Broader spectrum
   - Higher resistance potential
   - Use when ACCESS fails or contraindicated

   🔴 **RESERVE** = Last-resort antibiotics
   - Reserved for specific cases
   - Highest resistance concern
   - Should be protected

4. **STRUCTURE RESPONSES FOR CLARITY:**

   For first-line treatment questions:
   ```
   ## First-Line Treatment for [Condition]

   ### 🟢 ACCESS Group Recommendation

   **[Antibiotic Name]** (WHO AWaRe: ACCESS)

   **Dosing:**
   [Detailed, age-specific information]

   **Duration:** [Specific duration]

   **Rationale:**
   [Why this is first-line choice]

   **Contraindications:**
   [When not to use]

   **Monitoring:**
   [What to watch for]

   ---
   **Reference:** The WHO AWaRe (Access, Watch, Reserve) Antibiotic Book, 2022
   **Pages:** [specific page numbers or sections]
   ```

5. **CITATION FORMAT - MANDATORY:**

   Every response MUST end with proper citation:
   ```
   ---
   **Reference:** The WHO AWaRe (Access, Watch, Reserve) Antibiotic Book, 2022
   **Pages:** [specific page numbers, sections, or tables]
   ```

   Examples:
   - **Pages:** 45-47
   - **Pages:** Section 5.3, Respiratory Infections
   - **Pages:** Table 3, ACCESS Group Antibiotics
   - **Pages:** Annex 1, Pediatric Dosing

   NEVER include:
   - GitHub links
   - URLs
   - Web addresses

6. **CRITICAL GUIDELINES:**
   - Base all responses on WHO AWaRe Book 2022
   - Be accurate - stick to the guideline
   - Be complete - provide relevant clinical details
   - Be focused - answer what's asked
   - Always specify AWaRe group (ACCESS/WATCH/RESERVE)
   - Always include proper citations with pages
   - If information not in guideline, state clearly
   - Emphasize rational use and stewardship
   - Help combat multidrug resistance through wise choices

7. **TONE AND APPROACH:**
   - Professional but supportive
   - Empower health workers with knowledge
   - Emphasize wise, rational prescribing
   - Acknowledge clinical judgment importance
   - Encourage stewardship principles

Remember: You are PrescribeWise - helping health workers make wise prescribing decisions to combat antibiotic resistance. Every prescription matters."

/-- The Streamlit session state restricted to the keys the script uses:
`none` models a key absent from `st.session_state`. -/
structure SessionState where
  messages : Option (List Msg)
  display_messages : Option (List Msg)
  show_info : Option Bool
deriving DecidableEq, Repr

/-- A session state in which no key has been set yet (first script run). -/
def freshSession : SessionState :=
  { messages := none, display_messages := none, show_info := none }

/-- The three session-state initialisation blocks run on every script rerun:
`if "messages" not in st.session_state: st.session_state.messages = [system]`,
then the analogous guards for `display_messages` and `show_info`.  The system
message is inserted only when the `messages` key is absent. -/
def initState (pdf_loaded : Bool) (pdf_text : String) (s : SessionState) :
    SessionState :=
  let sysMsg : Msg := ⟨"system", systemPrompt (pdfContext pdf_loaded pdf_text)⟩
  let s1 := if s.messages.isNone then { s with messages := some [sysMsg] }
    else s
  let s2 := if s1.display_messages.isNone then
      { s1 with display_messages := some [] } else s1
  if s2.show_info.isNone then { s2 with show_info := some true } else s2

/-- The sidebar `🔄 New Consultation` button handler: sets `messages` and
`display_messages` to `[]` and `show_info` to `True`, then reruns. -/
def newConsultation (s : SessionState) : SessionState :=
  { s with messages := some [], display_messages := some [],
           show_info := some true }

/-- The main-area `🔄 New Consultation` button handler: resets only
`display_messages`, then reruns. -/
def newConsultationMain (s : SessionState) : SessionState :=
  { s with display_messages := some [] }

/-- The message list handed to
`client.chat.completions.create(messages=st.session_state.messages, ...)`
during the turn for `prompt`: the stored history with the user message
already appended. -/
def generatorInput (s : SessionState) (prompt : String) : List Msg :=
  s.messages.getD [] ++ [⟨"user", prompt⟩]

/-- The assistant text produced by the `try/except` around the streaming
completion: the accumulated streamed text on success, and
`f"❌ Error: ..."` when the call raises. -/
def turnResponse (result : Except String String) : String :=
  match result with
  | Except.ok text => text
  | Except.error e => "❌ Error: " ++ e

/-- One chat-input turn (`if prompt := st.chat_input(...)`): append the user
message to both histories, call the generation service on the stored message
list, and append the assistant message (answer or error text) to both
histories.  `G` is the external text-generation service, mapping the message
list sent to it to its outcome. -/
def runTurn (G : List Msg → Except String String) (s : SessionState)
    (prompt : String) : SessionState :=
  let msgs := generatorInput s prompt
  let response := turnResponse (G msgs)
  { s with
    messages := some (msgs ++ [⟨"assistant", response⟩]),
    display_messages :=
      some (s.display_messages.getD [] ++
        [⟨"user", prompt⟩, ⟨"assistant", response⟩]) }

/-- A sequence of chat turns in one session. -/
def runSession (G : List Msg → Except String String) (s : SessionState)
    (prompts : List String) : SessionState :=
  prompts.foldl (runTurn G) s

/-- The environment the module-level code observes: whether the PDF file
exists, the per-page extraction outcomes, and whether the API key is present
and the OpenAI client constructs without raising. -/
structure Config where
  fileExists : Bool
  pages : List PageResult
  apiKeyPresent : Bool
  clientInitOk : Bool

/-- The module-level state after the script prologue: the cached
`load_pdf_text` result plus the session state. -/
structure AppState where
  pdf_text : Option String
  pdf_error : Option String
  session : SessionState
deriving Repr

/-- The sidebar PDF status line: `st.sidebar.success` when `pdf_loaded`,
`st.sidebar.warning` otherwise. -/
def sidebarPdfStatus (pdf_loaded : Bool) : String :=
  if pdf_loaded then "✅ WHO AWaRe Book loaded"
  else "⚠️ WHO AWaRe Book not found"

/-- The module-level prologue of one script run: load the PDF, check the API
key and construct the client (`st.stop()` — modelled as `none` — when the
key is absent or the constructor raises), then run the session-state
initialisation blocks.  A missing or unparseable PDF does not stop the
script: it only leaves `pdf_text = None` and shows the sidebar warning. -/
def appInit (c : Config) (s : SessionState) : Option AppState :=
  let r := load_pdf_text c.fileExists c.pages "WHOAMR.pdf"
  if c.apiKeyPresent && c.clientInitOk then
    some { pdf_text := r.1, pdf_error := r.2,
           session := initState r.1.isSome (r.1.getD "") s }
  else none

/-- One chat turn at the level of the whole app: only the session state
changes; the cached PDF load result is untouched. -/
def runTurnApp (G : List Msg → Except String String) (a : AppState)
    (prompt : String) : AppState :=
  { a with session := runTurn G a.session prompt }

/-- Modelled from the spec: a `SearchResult` of the retrieval pipeline
(spec §3), `{chunk, score}` with the chunk's text and `source_pages`
metadata.  The retrieval pipeline (Chunker, Embedder, Index, Retriever,
Context Assembler) is described by the spec but is not part of
`src/streamlit_app.py`; cosine scores (floats in [-1, 1]) are modelled as
rationals. -/
structure SearchResult where
  chunkText : String
  source_pages : List Nat
  score : ℚ
deriving DecidableEq, Repr

/-- Modelled from the spec: the relevance floor applied to ranked results
before context assembly (spec §4.5): results below the similarity threshold
are excluded. -/
def applyRelevanceFloor (threshold : ℚ) (results : List SearchResult) :
    List SearchResult :=
  results.filter (fun r => threshold ≤ r.score)

/-- Modelled from the spec: the explicit result type distinguishing a
grounded context (with its traceable `(pages, score)` source list) from the
defined "insufficient grounding in source" outcome (spec §4.5, §7, §9). -/
inductive RetrievalOutcome where
  | grounded (context : String) (sources : List (List Nat × ℚ))
  | insufficientGrounding
deriving DecidableEq, Repr

/-- Modelled from the spec: the context assembler's bounded context block
built from the surviving results in rank order (spec §4.6; the per-source
labels and truncation are irrelevant to the grounding contract and are
abstracted to concatenation of the chunk texts). -/
def assembleContext (kept : List SearchResult) : String :=
  String.join (kept.map (fun r => r.chunkText))

/-- Modelled from the spec: the query-time decision after the relevance
floor — zero surviving results yield the explicit insufficient-grounding
outcome; otherwise the assembled context plus its source list is handed to
the generator (spec §4.5, §7).  The function is total: it never throws. -/
def respondToQuery (threshold : ℚ) (results : List SearchResult) :
    RetrievalOutcome :=
  let kept := applyRelevanceFloor threshold results
  if kept.isEmpty then RetrievalOutcome.insufficientGrounding
  else
    RetrievalOutcome.grounded (assembleContext kept)
      (kept.map (fun r => (r.source_pages, r.score)))

/-! ## Helper lemmas -/

theorem extractLoop_ok (i : Nat) (texts : List String) :
    extractLoop i (texts.map Except.ok) = Except.ok (renderAll i texts) := by
  induction texts generalizing i with
  | nil => rfl
  | cons t ts ih => simp [extractLoop, renderAll, ih]

theorem foldl_append_eq (a : String) (l : List String) :
    l.foldl (fun r s => r ++ s) a = a ++ l.foldl (fun r s => r ++ s) "" := by
  induction l generalizing a with
  | nil => simp [String.append_empty]
  | cons b bs ih =>
    simp only [List.foldl_cons]
    rw [ih (a ++ b), ih ("" ++ b), String.empty_append, String.append_assoc]

theorem join_cons (s : String) (l : List String) :
    String.join (s :: l) = s ++ String.join l := by
  show (s :: l).foldl (fun r t => r ++ t) "" = s ++ l.foldl (fun r t => r ++ t) ""
  simp only [List.foldl_cons]
  rw [foldl_append_eq, String.empty_append]

theorem renderAll_eq_join (i : Nat) (texts : List String) :
    renderAll i texts =
      String.join ((numberPages i texts).map
        (fun pg => "\n--- Page " ++ toString pg.1 ++ " ---\n" ++ pg.2)) := by
  induction texts generalizing i with
  | nil => rfl
  | cons t ts ih =>
    simp only [renderAll, numberPages, List.map_cons, ih]
    rw [join_cons]
    rfl

theorem numberPages_map_fst (i : Nat) (texts : List String) :
    (numberPages i texts).map Prod.fst = List.range' (i + 1) texts.length := by
  induction texts generalizing i with
  | nil => rfl
  | cons t ts ih => simp [numberPages, List.range', ih]

theorem numberPages_map_snd (i : Nat) (texts : List String) :
    (numberPages i texts).map Prod.snd = texts := by
  induction texts generalizing i with
  | nil => rfl
  | cons t ts ih => simp [numberPages, ih]

theorem extractLoop_error (i : Nat) (pre : List String) (e : String)
    (rest : List PageResult) :
    extractLoop i (pre.map Except.ok ++ Except.error e :: rest) =
      Except.error e := by
  induction pre generalizing i with
  | nil => rfl
  | cons t ts ih => simp [extractLoop, ih]

theorem runTurn_messages (G : List Msg → Except String String)
    (s : SessionState) (p : String) :
    (runTurn G s p).messages.getD [] =
      s.messages.getD [] ++
        [⟨"user", p⟩, ⟨"assistant", turnResponse (G (generatorInput s p))⟩] := by
  simp [runTurn, generatorInput]

theorem runTurn_display (G : List Msg → Except String String)
    (s : SessionState) (p : String) :
    (runTurn G s p).display_messages.getD [] =
      s.display_messages.getD [] ++
        [⟨"user", p⟩, ⟨"assistant", turnResponse (G (generatorInput s p))⟩] :=
  rfl

theorem runSession_cons (G : List Msg → Except String String)
    (s : SessionState) (p : String) (ps : List String) :
    runSession G s (p :: ps) = runSession G (runTurn G s p) ps :=
  rfl

/-! ## Claim theorems -/

/-- C5 counterexample: with a three-page document whose second page raises
`"boom"` during `extract_text()`, `load_pdf_text` returns `(None, "boom")` —
the whole extraction aborts and neither the first nor the third page's text
is produced, contradicting the claim that a single-page failure yields an
empty-text page and keeps the other pages. -/
theorem C5_counterexample :
    load_pdf_text true
        [Except.ok "alpha", Except.error "boom", Except.ok "gamma"]
        "WHOAMR.pdf" = (none, some "boom") :=
  rfl

/-- C5 (amended): if text extraction raises on any one page, the
whole-document extraction aborts: `load_pdf_text` returns `None` together
with that page's error message, and no page text at all is produced (the
per-page failure is not recovered as an empty-text page). -/
theorem C5_amended_page_failure_aborts (pre : List String) (e : String)
    (rest : List PageResult) (path : String) :
    load_pdf_text true (pre.map Except.ok ++ Except.error e :: rest) path =
      (none, some e) := by
  simp [load_pdf_text, extractLoop_error]

/-- C7: when every page extracts successfully, `load_pdf_text` produces the
concatenation, in order, of one labeled block per physical page; the page
sequence it walks has exactly one record per page, numbered `1, 2, ...` in
order (the k-th extracted page is labeled page k), with each page's own
text. -/
theorem C7_page_numbering (texts : List String) (path : String) :
    load_pdf_text true (texts.map Except.ok) path =
        (some (renderAll 0 texts), none)
    ∧ renderAll 0 texts =
        String.join ((extractedPages texts).map
          (fun pg => "\n--- Page " ++ toString pg.1 ++ " ---\n" ++ pg.2))
    ∧ (extractedPages texts).length = texts.length
    ∧ (extractedPages texts).map Prod.fst = List.range' 1 texts.length
    ∧ (extractedPages texts).map Prod.snd = texts := by
  refine ⟨?_, renderAll_eq_join 0 texts, ?_,
    numberPages_map_fst 0 texts, numberPages_map_snd 0 texts⟩
  · simp [load_pdf_text, extractLoop_ok]
  · have h := congrArg List.length (numberPages_map_snd 0 texts)
    simpa [extractedPages] using h

/-- C8: `load_pdf_text` always returns exactly one of its two components as
`None`: either `(text, None)` on success, or `(None, error message)` when
the file is missing or any exception escapes the extraction; never both set
and never both `None`. -/
theorem C8_exactly_one_none (fileExists : Bool) (pages : List PageResult)
    (path : String) :
    ((load_pdf_text fileExists pages path).1.isSome = true
      ∧ (load_pdf_text fileExists pages path).2 = none)
    ∨ ((load_pdf_text fileExists pages path).1 = none
      ∧ (load_pdf_text fileExists pages path).2.isSome = true) := by
  cases fileExists with
  | false => right; exact ⟨rfl, rfl⟩
  | true =>
    cases h : extractLoop 0 pages with
    | ok t => left; simp [load_pdf_text, h]
    | error e => right; simp [load_pdf_text, h]

/-- C10: every submitted chat prompt appends exactly two entries — first the
user entry with the prompt text, then the assistant entry — to both
`st.session_state.messages` and `st.session_state.display_messages`, in that
order; the assistant entry's content is the generator's text on success and
the `❌ Error:` message when the call raises, so the two histories grow in
lockstep on every turn. -/
theorem C10_histories_lockstep (s : SessionState)
    (G : List Msg → Except String String) (p : String) :
    ((runTurn G s p).messages.getD [] =
        s.messages.getD [] ++
          [⟨"user", p⟩, ⟨"assistant", turnResponse (G (generatorInput s p))⟩])
    ∧ ((runTurn G s p).display_messages.getD [] =
        s.display_messages.getD [] ++
          [⟨"user", p⟩, ⟨"assistant", turnResponse (G (generatorInput s p))⟩])
    ∧ (∀ t, turnResponse (Except.ok t) = t)
    ∧ (∀ e, turnResponse (Except.error e) = "❌ Error: " ++ e) :=
  ⟨runTurn_messages G s p, runTurn_display G s p,
    fun _ => rfl, fun _ => rfl⟩

/-- C1 counterexample: in a fresh session over the loaded document `"DOC"`,
two different user questions are handed to the generator with the identical
system message, whose document portion is `pdf_text[:10000]` — a fixed,
question-independent excerpt, not passages located per question. -/
theorem C1_counterexample :
    generatorInput (initState true "DOC" freshSession)
        "What is the first-line treatment for pneumonia?" =
      [⟨"system", systemPrompt (pdfContext true "DOC")⟩,
        ⟨"user", "What is the first-line treatment for pneumonia?"⟩]
    ∧ generatorInput (initState true "DOC" freshSession)
        "Which antibiotics treat UTI?" =
      [⟨"system", systemPrompt (pdfContext true "DOC")⟩,
        ⟨"user", "Which antibiotics treat UTI?"⟩]
    ∧ "What is the first-line treatment for pneumonia?" ≠
        "Which antibiotics treat UTI?"
    ∧ pdfContext true "DOC" =
        "\n\nWHO AWaRe ANTIBIOTIC BOOK (2022) CONTENT:\n" ++ "DOC".take 10000
          ++ "\n[... document continues ...]" :=
  ⟨rfl, rfl, by decide, by simp [pdfContext]⟩

/-- C1 (amended): for every user question, the system hands the answer
generator a fixed, question-independent context: the first 10000 characters
of the extracted document text, embedded once in the system prompt at
session initialisation; the generation call's message list is that system
message followed by the history and the question. -/
theorem C1_amended_fixed_context (pdf_text : String) (p : String) :
    generatorInput (initState true pdf_text freshSession) p =
      [⟨"system", systemPrompt (pdfContext true pdf_text)⟩, ⟨"user", p⟩]
    ∧ pdfContext true pdf_text =
        "\n\nWHO AWaRe ANTIBIOTIC BOOK (2022) CONTENT:\n" ++
          pdf_text.take 10000 ++ "\n[... document continues ...]" :=
  ⟨rfl, by simp [pdfContext]⟩

/-- C2: whenever the relevance floor leaves zero retrieval results, the
query produces the explicit insufficient-grounding outcome — a value of the
total function `respondToQuery`, never an exception — and is never the
grounded outcome built from weak or absent matches. -/
theorem C2_insufficient_grounding (threshold : ℚ)
    (results : List SearchResult)
    (h : applyRelevanceFloor threshold results = []) :
    respondToQuery threshold results = RetrievalOutcome.insufficientGrounding
    ∧ ∀ c srcs,
        respondToQuery threshold results ≠
          RetrievalOutcome.grounded c srcs := by
  have hmain : respondToQuery threshold results =
      RetrievalOutcome.insufficientGrounding := by
    simp [respondToQuery, h]
  refine ⟨hmain, fun c srcs hc => ?_⟩
  rw [hmain] at hc
  exact RetrievalOutcome.noConfusion hc

/-- C2 witness: a concrete query whose single result scores 1/10, below the
reference floor 7/10, yields the insufficient-grounding outcome. -/
theorem C2_witness :
    applyRelevanceFloor (7 / 10) [⟨"orthogonal chunk", [3], 1 / 10⟩] = []
    ∧ respondToQuery (7 / 10) [⟨"orthogonal chunk", [3], 1 / 10⟩] =
        RetrievalOutcome.insufficientGrounding := by
  have h : applyRelevanceFloor (7 / 10)
      [⟨"orthogonal chunk", [3], 1 / 10⟩] = [] := by
    simp [applyRelevanceFloor]
    norm_num
  exact ⟨h, (C2_insufficient_grounding (7 / 10) _ h).1⟩

/-- C3 counterexample: the displayed assistant message is the generation
service's output verbatim.  With a one-page document (whose only real page
number is 1), a generator that emits the citation `**Pages:** 9999` puts
page 9999 on screen even though no extracted page — hence no retrieved
chunk metadata — carries that number: the page number in the citation is
invented by the downstream text-generation service. -/
theorem C3_counterexample :
    ((runTurn (fun _ => Except.ok "**Pages:** 9999")
        (initState true (renderAll 0 ["alpha"]) freshSession)
        "q").display_messages.getD []).getLast? =
      some ⟨"assistant", "**Pages:** 9999"⟩
    ∧ (extractedPages ["alpha"]).map Prod.fst = [1]
    ∧ (9999 : Nat) ∉ (extractedPages ["alpha"]).map Prod.fst :=
  ⟨rfl, rfl, by decide⟩

/-- C3 (amended): citation page numbers shown with an answer come from the
downstream text-generation service: the assistant entry displayed for a
turn is exactly the generator's streamed text on success (the error message
on failure), displayed verbatim; the system keeps no retrieved-chunk
`source_pages` metadata and performs no check of cited pages, only
instructing the generator (in the system prompt) to end with a Pages
citation. -/
theorem C3_amended_citations_from_generator (s : SessionState)
    (G : List Msg → Except String String) (p : String) :
    ((runTurn G s p).display_messages.getD []).getLast? =
      some ⟨"assistant", turnResponse (G (generatorInput s p))⟩
    ∧ (∀ t, turnResponse (Except.ok t) = t) := by
  refine ⟨?_, fun _ => rfl⟩
  rw [runTurn_display]
  simp [List.getLast?_append]

/-- C4 counterexample: with the PDF file missing but the API key present,
`load_pdf_text` reports the error, yet the script does not stop: the app
state is built, the sidebar merely shows a warning, and a submitted query is
still answered from the generator — degraded service without the document,
contradicting the claim that no query is served. -/
theorem C4_counterexample :
    load_pdf_text false [] "WHOAMR.pdf" =
        (none, some "PDF not found at WHOAMR.pdf")
    ∧ (appInit ⟨false, [], true, true⟩ freshSession).isSome = true
    ∧ (appInit ⟨false, [], true, true⟩ freshSession).map
        (fun a => a.pdf_text) = some none
    ∧ (appInit ⟨false, [], true, true⟩ freshSession).map
        (fun a => ((runTurnApp (fun _ => Except.ok "answer from AI knowledge")
          a "q").session.display_messages.getD []).getLast?) =
        some (some ⟨"assistant", "answer from AI knowledge"⟩)
    ∧ sidebarPdfStatus false = "⚠️ WHO AWaRe Book not found" :=
  ⟨rfl, rfl, rfl, rfl, rfl⟩

/-- C4 (amended): a missing document is reported but not fatal: when the
API key is present and the client constructs, the script completes its
prologue with `pdf_text = None` and the not-found error, shows the sidebar
warning, leaves the document excerpt of the system prompt empty, and still
serves queries (each turn appends its two history entries); only a missing
API key or a failing client constructor stops the script. -/
theorem C4_amended_degraded_service (c : Config) (s : SessionState)
    (G : List Msg → Except String String) (p : String)
    (hk : c.apiKeyPresent = true) (hc : c.clientInitOk = true)
    (hf : c.fileExists = false) :
    appInit c s =
        some ⟨none, some "PDF not found at WHOAMR.pdf", initState false "" s⟩
    ∧ sidebarPdfStatus false = "⚠️ WHO AWaRe Book not found"
    ∧ pdfContext false "" = ""
    ∧ ∀ a, appInit c s = some a →
        ((runTurnApp G a p).session.messages.getD []).length =
          (a.session.messages.getD []).length + 2 := by
  obtain ⟨fe, pg, ak, ci⟩ := c
  cases hk
  cases hc
  cases hf
  refine ⟨rfl, rfl, rfl, fun a ha => ?_⟩
  have : (runTurnApp G a p).session.messages.getD [] =
      a.session.messages.getD [] ++
        [⟨"user", p⟩,
          ⟨"assistant", turnResponse (G (generatorInput a.session p))⟩] :=
    runTurn_messages G a.session p
  rw [this]
  simp

/-- C4 witness: the amended claim instantiated at the concrete environment
with the PDF missing and the API key present. -/
theorem C4_amended_witness :
    appInit ⟨false, [], true, true⟩ freshSession =
      some ⟨none, some "PDF not found at WHOAMR.pdf",
        initState false "" freshSession⟩ :=
  (C4_amended_degraded_service ⟨false, [], true, true⟩ freshSession
    (fun _ => Except.ok "hi") "q" rfl rfl rfl).1

/-- C6: when the generation call raises during one turn, the failure is
recovered into the `❌ Error:` assistant message for that turn only: the
cached PDF load result is unchanged (neither corrupted nor rebuilt), the
error text is appended to both histories, and the next turn proceeds
normally, appending its own user and assistant entries. -/
theorem C6_generation_error_local (a : AppState) (p e : String)
    (G : List Msg → Except String String)
    (h : G (generatorInput a.session p) = Except.error e) :
    (runTurnApp G a p).pdf_text = a.pdf_text
    ∧ (runTurnApp G a p).pdf_error = a.pdf_error
    ∧ ((runTurnApp G a p).session.display_messages.getD []).getLast? =
        some ⟨"assistant", "❌ Error: " ++ e⟩
    ∧ ((runTurnApp G a p).session.messages.getD []).getLast? =
        some ⟨"assistant", "❌ Error: " ++ e⟩
    ∧ ∀ (G2 : List Msg → Except String String) (p2 : String),
        (runTurnApp G2 (runTurnApp G a p) p2).session.messages.getD [] =
          (runTurnApp G a p).session.messages.getD [] ++
            [⟨"user", p2⟩,
              ⟨"assistant",
                turnResponse (G2 (generatorInput
                  (runTurnApp G a p).session p2))⟩] := by
  have hresp : turnResponse (G (generatorInput a.session p)) =
      "❌ Error: " ++ e := by rw [h]; rfl
  have hsess : (runTurnApp G a p).session = runTurn G a.session p := rfl
  refine ⟨rfl, rfl, ?_, ?_, fun G2 p2 => runTurn_messages G2 _ p2⟩
  · rw [hsess, runTurn_display G a.session p, hresp]
    simp [List.getLast?_append]
  · rw [hsess, runTurn_messages G a.session p, hresp]
    simp [List.getLast?_append]

/-- C6 witness: the theorem instantiated at a concrete app state and a
generator that raises `"rate limit"`. -/
theorem C6_witness :
    ((runTurnApp (fun _ => Except.error "rate limit")
        ⟨some "T", none, initState true "T" freshSession⟩
        "q").session.display_messages.getD []).getLast? =
      some ⟨"assistant", "❌ Error: " ++ "rate limit"⟩ :=
  (C6_generation_error_local
    ⟨some "T", none, initState true "T" freshSession⟩ "q" "rate limit"
    (fun _ => Except.error "rate limit") rfl).2.2.1

/-- C9 helper: one turn preserves the absence of system-role messages in
`st.session_state.messages` (a turn appends only a user and an assistant
entry). -/
theorem noSystem_runTurn (G : List Msg → Except String String)
    (s : SessionState) (p : String)
    (h : ∀ m ∈ s.messages.getD [], m.role ≠ "system") :
    ∀ m ∈ (runTurn G s p).messages.getD [], m.role ≠ "system" := by
  intro m hm
  rw [runTurn_messages] at hm
  rcases List.mem_append.mp hm with h1 | h2
  · exact h m h1
  · rcases List.mem_cons.mp h2 with rfl | h3
    · exact (show "user" ≠ "system" by decide)
    · rcases List.mem_cons.mp h3 with rfl | h4
      · exact (show "assistant" ≠ "system" by decide)
      · exact absurd h4 (List.not_mem_nil m)

/-- C9 helper: a whole sequence of turns preserves the absence of
system-role messages. -/
theorem noSystem_runSession (G : List Msg → Except String String)
    (prompts : List String) :
    ∀ s : SessionState, (∀ m ∈ s.messages.getD [], m.role ≠ "system") →
      ∀ m ∈ (runSession G s prompts).messages.getD [], m.role ≠ "system" := by
  induction prompts with
  | nil => exact fun s h => h
  | cons p ps ih =>
    intro s h
    rw [runSession_cons]
    exact ih (runTurn G s p) (noSystem_runTurn G s p h)

/-- C9: after the sidebar New Consultation reset, `messages` is the empty
list; the session-state initialisation block is a no-op on the reset state
(the `messages` key is present, so the system prompt is never re-inserted);
and every subsequent generation call — the stored history plus the new user
message — contains no system-role message. -/
theorem C9_no_system_after_reset (s : SessionState) (pl : Bool)
    (pt : String) (G : List Msg → Except String String)
    (prompts : List String) :
    initState pl pt (newConsultation s) = newConsultation s
    ∧ (initState pl pt (newConsultation s)).messages = some []
    ∧ ∀ (p : String),
        ∀ m ∈ generatorInput
          (runSession G (initState pl pt (newConsultation s)) prompts) p,
          m.role ≠ "system" := by
  refine ⟨rfl, rfl, fun p m hm => ?_⟩
  rcases List.mem_append.mp hm with h1 | h2
  · refine noSystem_runSession G prompts (initState pl pt (newConsultation s))
      (fun m' hm' => ?_) m h1
    exact absurd hm' (List.not_mem_nil m')
  · rcases List.mem_cons.mp h2 with rfl | h3
    · exact (show "user" ≠ "system" by decide)
    · exact absurd h3 (List.not_mem_nil m)

/-- C9 witness: the theorem instantiated at a concrete session, generator
and one-turn prompt list, with the concrete membership hypothesis
discharged by computation. -/
theorem C9_witness :
    (Msg.mk "user" "next").role ≠ "system" :=
  (C9_no_system_after_reset freshSession true "DOC"
    (fun _ => Except.ok "answer") ["q"]).2.2 "next" ⟨"user", "next"⟩
    (by decide)

end PrescribeWise
